import Mathlib

/-!
A shallow embedding of the etterskrift PostScript-like interpreter
(src/stack.rs, src/operators.rs, src/main.rs) and proofs about it.

Modelling conventions:
* Rust `i32` is modelled as `Int` (no claim exercises 32-bit overflow of
  arithmetic operators; parsing functions do check the i32 range, as the
  source relies on `str::parse::<i32>` / `from_str_radix` failing there).
* Rust `f32` payloads are modelled as `Rat`; every float computation a claim
  evaluates (`4 2 div`, `1.0` literals) is exact in both `f32` and `Rat`.
  Rounding, infinities and NaN are not modelled.
* `HashMap<String, Item>` is modelled as an association list with
  replace-or-append insertion.  HashMap equality is iteration-order
  independent; in this program the only `Dict` values that can reach the
  operand stack (and hence `eq`/`ne`) are empty maps, where list equality
  and map equality coincide.
* Rust `Result`/`panic!` outcomes are modelled explicitly: an `Outcome`
  is `ok`, a recoverable `err`, or a host-level `panicked`, each carrying
  the state at that point (mutations before a failure persist, as with
  `&mut State`).
-/

namespace ES

/-- Runtime values: `Item` from src/stack.rs. -/
inductive Item where
  | number : Int → Item
  | float : Rat → Item
  | bool : Bool → Item
  | dict : List (String × Item) → Item
  | key : String → Item
  | block : String → Item
  | mark : Item
  | array : List Item → Item

mutual

/-- The derived `PartialEq` on `Item`: variant-sensitive structural equality.
`Dict` fields are compared as lists (see the header note on `HashMap`). -/
def itemEq : Item → Item → Bool
  | .number a, .number b => decide (a = b)
  | .float a, .float b => decide (a = b)
  | .bool a, .bool b => decide (a = b)
  | .dict a, .dict b => itemAListEq a b
  | .key a, .key b => decide (a = b)
  | .block a, .block b => decide (a = b)
  | .mark, .mark => true
  | .array a, .array b => itemListEq a b
  | _, _ => false

/-- Model of `PartialEq` on `Vec<Item>`: pointwise. -/
def itemListEq : List Item → List Item → Bool
  | [], [] => true
  | a :: as, b :: bs => itemEq a b && itemListEq as bs
  | _, _ => false

/-- Equality of dictionary entry lists: pointwise on key/value pairs. -/
def itemAListEq : List (String × Item) → List (String × Item) → Bool
  | [], [] => true
  | (k1, v1) :: ps, (k2, v2) :: qs => decide (k1 = k2) && itemEq v1 v2 && itemAListEq ps qs
  | _, _ => false

end

mutual

theorem itemEq_iff : ∀ a b : Item, itemEq a b = true ↔ a = b
  | .number x, b => by cases b <;> simp [itemEq]
  | .float x, b => by cases b <;> simp [itemEq]
  | .bool x, b => by cases b <;> simp [itemEq]
  | .key x, b => by cases b <;> simp [itemEq]
  | .block x, b => by cases b <;> simp [itemEq]
  | .mark, b => by cases b <;> simp [itemEq]
  | .dict ps, b => by
      cases b <;> simp [itemEq]
      exact itemAListEq_iff ps _
  | .array xs, b => by
      cases b <;> simp [itemEq]
      exact itemListEq_iff xs _

theorem itemListEq_iff : ∀ as bs : List Item, itemListEq as bs = true ↔ as = bs
  | [], [] => by simp [itemListEq]
  | [], _ :: _ => by simp [itemListEq]
  | _ :: _, [] => by simp [itemListEq]
  | a :: as, b :: bs => by
      simp [itemListEq, Bool.and_eq_true, itemEq_iff a b, itemListEq_iff as bs]

theorem itemAListEq_iff : ∀ ps qs : List (String × Item), itemAListEq ps qs = true ↔ ps = qs
  | [], [] => by simp [itemAListEq]
  | [], _ :: _ => by simp [itemAListEq]
  | _ :: _, [] => by simp [itemAListEq]
  | (k1, v1) :: ps, (k2, v2) :: qs => by
      simp [itemAListEq, Bool.and_eq_true, itemEq_iff v1 v2, itemAListEq_iff ps qs, and_assoc]

end

/-- A constructor tag, to state variant-sensitivity of `itemEq`. -/
def Item.tag : Item → Nat
  | .number _ => 0
  | .float _ => 1
  | .bool _ => 2
  | .dict _ => 3
  | .key _ => 4
  | .block _ => 5
  | .mark => 6
  | .array _ => 7

theorem itemEq_of_tag_ne (a b : Item) (h : a.tag ≠ b.tag) : itemEq a b = false := by
  cases a <;> cases b <;> simp_all [itemEq, Item.tag]

/-- Host-level panics (`panic!`, `.unwrap()`, `.expect(..)`): aborts, not
recoverable interpreter errors. -/
inductive Panic where
  | notKind : Item → String → Panic   -- `panic!("{:?} not a <kind>", self)` in src/stack.rs
  | cantRunBlock : Panic              -- `.expect(..)` in `array_forall`
  | unwrapNone : Panic                -- `.unwrap()` on a missing value
  | other : String → Panic            -- `unreachable!` / `.expect(..)` sites in main.rs

/-- Recoverable failures; each constructor is one `Report::msg` format string
of the source, carrying its interpolated data. -/
inductive Err where
  | stackUnderflow : String → Err     -- "/stackunderflow in <fn>" (the `operator!` macro)
  | popUnderflow : Err                -- "/stackunderflow" (`Stack::pop`)
  | typeCheck : Item → String → Err   -- "{:?} not a <kind>" (coercions in src/stack.rs)
  | typeCheckMul : Err                -- "/typecheck in --mul--"
  | unmatchedMark : Err               -- "/unmatchedmark in --]--"
  | syntaxError : Err                 -- "/syntaxerror in }"
  | undefined : String → Err          -- "/undefined in <s>"
  | invalidNumber : String → Err      -- "/invalidnumber in <s>"

/-- Result of a value coercion (`Result<T>` in Rust, plus the possibility of
a `panic!` in the coercion body). -/
inductive CoerceOut (α : Type) where
  | ok : α → CoerceOut α
  | err : Err → CoerceOut α
  | panicked : Panic → CoerceOut α

/-- Model of `Item::as_int` (src/stack.rs): `Number` only, else a TypeCheck error. -/
def Item.as_int : Item → CoerceOut Int
  | .number i => .ok i
  | v => .err (.typeCheck v "int")

/-- Model of `Item::as_float` (src/stack.rs): ints widen, floats pass, else TypeCheck. -/
def Item.as_float : Item → CoerceOut Rat
  | .number i => .ok (i : Rat)
  | .float f => .ok f
  | v => .err (.typeCheck v "float")

/-- Model of `Item::as_key` (src/stack.rs). -/
def Item.as_key : Item → CoerceOut String
  | .key s => .ok s
  | v => .err (.typeCheck v "key")

/-- Model of `Item::as_block` (src/stack.rs). -/
def Item.as_block : Item → CoerceOut String
  | .block s => .ok s
  | v => .err (.typeCheck v "block")

/-- Model of `Item::as_array` (src/stack.rs): note the wrong-variant arm is
`panic!("{:?} not an array", self)`, not an `Err`. -/
def Item.as_array : Item → CoerceOut (List Item)
  | .array a => .ok a
  | v => .panicked (.notKind v "array")

/-- Model of `Item::as_bool` (src/stack.rs): wrong variant panics. -/
def Item.as_bool : Item → CoerceOut Bool
  | .bool b => .ok b
  | v => .panicked (.notKind v "bool")

/-- Model of `Item::into_dict` (src/stack.rs): wrong variant panics. -/
def Item.into_dict : Item → CoerceOut (List (String × Item))
  | .dict d => .ok d
  | v => .panicked (.notKind v "dict")

/-- Interpreter state (`State` in src/main.rs).  Stacks are lists with the
top at the head; `block_stack` keeps the `Vec` insertion order (push at the
end), since the `}` handler reads it front-to-back (`items[1..].join(" ")`). -/
structure State where
  operand_stack : List Item
  dictionary : List (String × Item)
  dict_stack : List (List (String × Item))
  block_stack : List String
  block_marks : Nat

/-- Model of `State::new` (src/main.rs). -/
def State.init : State := ⟨[], [], [], [], 0⟩

/-- Model of `HashMap::get` on one dictionary (first matching key). -/
def lookupD : List (String × Item) → String → Option Item
  | [], _ => none
  | (k0, v) :: rest, k => if k0 = k then some v else lookupD rest k

/-- Model of `HashMap::insert`: replace the value if the key is present, else add. -/
def insertD : List (String × Item) → String → Item → List (String × Item)
  | [], k, v => [(k, v)]
  | (k0, v0) :: rest, k, v =>
      if k0 = k then (k, v) :: rest else (k0, v0) :: insertD rest k v

/-- Lookup through the enclosing-dictionary stack, newest (head) first:
the `dict_stack.inner.iter().rev()` loops in `State::get`/`contains_key`. -/
def lookupChain : List (List (String × Item)) → String → Option Item
  | [], _ => none
  | d :: ds, k =>
      match lookupD d k with
      | some v => some v
      | none => lookupChain ds k

/-- Model of `State::get` (src/main.rs): current dictionary first, then the chain. -/
def State.get (st : State) (k : String) : Option Item :=
  match lookupD st.dictionary k with
  | some v => some v
  | none => lookupChain st.dict_stack k

/-- Model of `State::contains_key` (src/main.rs). -/
def State.contains_key (st : State) (k : String) : Bool :=
  (st.get k).isSome

/-- Evaluation outcome of a statement acting on `&mut State`: the state is
carried through errors and panics (mutations before the failure persist). -/
inductive Outcome where
  | ok : State → Outcome
  | err : Err → State → Outcome
  | panicked : Panic → State → Outcome

/-- The recursive evaluator entry point, abstracted so operator bodies can
call back into `execute` (src/operators.rs calls `super::execute`). -/
abbrev EvalFn := String → State → Outcome

/-- Continue with a coercion's result, or stop with its failure at the
current state (the `?` operator on a coercion call). -/
def CoerceOut.andThen : CoerceOut α → State → (α → Outcome) → Outcome
  | .ok a, _, k => k a
  | .err e, st, _ => .err e st
  | .panicked p, st, _ => .panicked p st

/-- Model of `state.operand_stack.pop()?`: underflow is the recoverable
"/stackunderflow" error from `Stack::pop`. -/
def popK (st : State) (k : Item → State → Outcome) : Outcome :=
  match st.operand_stack with
  | [] => .err .popUnderflow st
  | a :: rest => k a { st with operand_stack := rest }

/-- Model of `state.operand_stack.pop().unwrap()`: underflow panics (used by `exch`). -/
def popUnwrapK (st : State) (k : Item → State → Outcome) : Outcome :=
  match st.operand_stack with
  | [] => .panicked .unwrapNone st
  | a :: rest => k a { st with operand_stack := rest }

/-- Model of `add` (src/operators.rs): pop two ints, push their sum. -/
def add (st : State) : Outcome :=
  popK st fun a st => a.as_int.andThen st fun n2 =>
  popK st fun b st => b.as_int.andThen st fun n1 =>
  .ok { st with operand_stack := .number (n2 + n1) :: st.operand_stack }

/-- Model of `sub` (src/operators.rs). -/
def sub (st : State) : Outcome :=
  popK st fun a st => a.as_int.andThen st fun n2 =>
  popK st fun b st => b.as_int.andThen st fun n1 =>
  .ok { st with operand_stack := .number (n1 - n2) :: st.operand_stack }

/-- Model of `mul` (src/operators.rs): int path first, float fallback, else TypeCheck. -/
def mul (st : State) : Outcome :=
  popK st fun a st =>
  popK st fun b st =>
  match a.as_int, b.as_int with
  | .ok x, .ok y => .ok { st with operand_stack := .number (x * y) :: st.operand_stack }
  | _, _ =>
    match a.as_float, b.as_float with
    | .ok x, .ok y => .ok { st with operand_stack := .float (x * y) :: st.operand_stack }
    | _, _ => .err .typeCheckMul st

/-- Model of `div` (src/operators.rs): both operands coerced to float, float result.
(`f32` division modelled as exact `Rat` division; division by zero, which
`f32` maps to an infinity or NaN, is not modelled.) -/
def div (st : State) : Outcome :=
  popK st fun a st => a.as_float.andThen st fun n2 =>
  popK st fun b st => b.as_float.andThen st fun n1 =>
  .ok { st with operand_stack := .float (n1 / n2) :: st.operand_stack }

/-- Model of `neg` (src/operators.rs). -/
def neg (st : State) : Outcome :=
  popK st fun a st => a.as_int.andThen st fun n =>
  .ok { st with operand_stack := .number (-n) :: st.operand_stack }

/-- Model of `sqrt` (src/operators.rs).  `f32::sqrt` modelled by `Rat.sqrt`, exact on
the perfect squares the spec exercises; no claim evaluates other inputs. -/
def sqrt (st : State) : Outcome :=
  popK st fun a st => a.as_float.andThen st fun n =>
  .ok { st with operand_stack := .float (Rat.sqrt n) :: st.operand_stack }

/-- Modelled from the spec: `rand`'s entropy source (std `RandomState`
hashing) is host randomness outside the core sources and §4.4 leaves it
unspecified; modelled as a fixed value, which no claim observes. -/
def randValue : Int := 0

/-- Model of `rand` (src/operators.rs). -/
def rand (st : State) : Outcome :=
  .ok { st with operand_stack := .number randValue :: st.operand_stack }

/-- Model of `exch` (src/operators.rs): two `.unwrap()`ed pops, then push back in
swapped order. -/
def exch (st : State) : Outcome :=
  popUnwrapK st fun a st =>
  popUnwrapK st fun b st =>
  .ok { st with operand_stack := b :: a :: st.operand_stack }

/-- Model of `dup` (src/operators.rs). -/
def dup (st : State) : Outcome :=
  popK st fun a st =>
  .ok { st with operand_stack := a :: a :: st.operand_stack }

/-- Model of `pop` (src/operators.rs): the popped `Result` is discarded
(`let _a = stack.pop();`), so this body never fails. -/
def pop (st : State) : Outcome :=
  .ok { st with operand_stack := st.operand_stack.tail }

/-- Model of `clear` (src/operators.rs). -/
def clear (st : State) : Outcome :=
  .ok { st with operand_stack := [] }

/-- Model of `pstack` (src/operators.rs): diagnostic printing only; output is outside
the core (spec §4.5 excludes it from correctness contracts). -/
def pstack (st : State) : Outcome := .ok st

/-- Model of `count` (src/operators.rs). -/
def count (st : State) : Outcome :=
  .ok { st with operand_stack := .number (st.operand_stack.length : Int) :: st.operand_stack }

/-- Model of `pdict` (src/operators.rs): diagnostic printing only. -/
def pdict (st : State) : Outcome := .ok st

/-- Model of `def` (src/operators.rs); named `defOp` because `def` is a Lean keyword.
Pops value then key and inserts into the *current* dictionary. -/
def defOp (st : State) : Outcome :=
  popK st fun item st =>
  popK st fun name st =>
  name.as_key.andThen st fun k =>
  .ok { st with dictionary := insertD st.dictionary k item }

/-- Model of `exec` (src/operators.rs): pop a block, evaluate its text. -/
def exec (ev : EvalFn) (st : State) : Outcome :=
  popK st fun c st => c.as_block.andThen st fun code =>
  ev code st

/-- Shared iteration scheme of `repeat` and `for`: push each index and run
the block, propagating failures (`super::execute(..)?`). -/
def iterBlock (ev : EvalFn) (proc : String) : List Int → State → Outcome
  | [], st => .ok st
  | i :: is, st =>
      match ev proc { st with operand_stack := .number i :: st.operand_stack } with
      | .ok st2 => iterBlock ev proc is st2
      | o => o

/-- Model of `repeat` (src/operators.rs); named `repeatOp` because `repeat` is
reserved in Lean.  Runs the block for `i` in `0..n`. -/
def repeatOp (ev : EvalFn) (st : State) : Outcome :=
  popK st fun p st => p.as_block.andThen st fun proc =>
  popK st fun ni st => ni.as_int.andThen st fun n =>
  iterBlock ev proc ((List.range n.toNat).map Int.ofNat) st

/-- Index list of `(init..=limit).step_by(step)` for `step ≥ 1`. -/
def forIndices (init limit : Int) (step : Nat) : List Int :=
  (List.range (if init ≤ limit then (limit - init).toNat / step + 1 else 0)).map
    (fun j => init + (step : Int) * (j : Int))

/-- Model of `for` (src/operators.rs).  `inc as usize` is the 64-bit cast; a zero step
makes `step_by` panic (spec §9 flags non-positive increments as unspecified). -/
def for_loop (ev : EvalFn) (st : State) : Outcome :=
  popK st fun p st => p.as_block.andThen st fun proc =>
  popK st fun li st => li.as_int.andThen st fun limit =>
  popK st fun ci st => ci.as_int.andThen st fun inc =>
  popK st fun ii st => ii.as_int.andThen st fun init =>
  let step := (inc.emod (2 ^ 64)).toNat
  if step = 0 then .panicked (.other "step_by with a step of zero") st
  else iterBlock ev proc (forIndices init limit step) st

/-- Model of `if` (src/operators.rs): pops block then condition; note the condition
goes through `as_bool`, which panics on a non-`Bool`. -/
def if_cond (ev : EvalFn) (st : State) : Outcome :=
  popK st fun p st => p.as_block.andThen st fun proc =>
  popK st fun c st => c.as_bool.andThen st fun cond =>
  if cond then ev proc st else .ok st

/-- Model of `ifelse` (src/operators.rs). -/
def ifelse_cond (ev : EvalFn) (st : State) : Outcome :=
  popK st fun p2 st => p2.as_block.andThen st fun proc2 =>
  popK st fun p1 st => p1.as_block.andThen st fun proc1 =>
  popK st fun c st => c.as_bool.andThen st fun cond =>
  if cond then ev proc1 st else ev proc2 st

/-- Model of `mark` (src/operators.rs). -/
def mark (st : State) : Outcome :=
  .ok { st with operand_stack := .mark :: st.operand_stack }

/-- Split the operand stack (top at head) at the `Mark` nearest the top:
`rposition` over the underlying `Vec`.  Returns the elements above the mark
(top first) and the rest below it. -/
def findMarkSplit : List Item → Option (List Item × List Item)
  | [] => none
  | .mark :: rest => some ([], rest)
  | x :: rest =>
      match findMarkSplit rest with
      | some (a, b) => some (x :: a, b)
      | none => none

/-- Model of `array_close` (src/operators.rs): drain from the nearest `Mark` upward,
drop the mark, push the drained run (original bottom-to-top order) as an
`Array`; no `Mark` at all is the UnmatchedMark error. -/
def array_close (st : State) : Outcome :=
  match findMarkSplit st.operand_stack with
  | none => .err .unmatchedMark st
  | some (above, below) =>
      .ok { st with operand_stack := .array above.reverse :: below }

/-- Model of `length` (src/operators.rs): `as_array` panics on a non-array. -/
def array_length (st : State) : Outcome :=
  popK st fun item st => item.as_array.andThen st fun a =>
  .ok { st with operand_stack := .number (a.length : Int) :: st.operand_stack }

/-- The loop of `forall`: `super::execute(..).expect("can't run block")` —
a failing block evaluation aborts with a panic instead of propagating. -/
def forallLoop (ev : EvalFn) (proc : String) : List Item → State → Outcome
  | [], st => .ok st
  | e :: es, st =>
      match ev proc { st with operand_stack := e :: st.operand_stack } with
      | .ok st2 => forallLoop ev proc es st2
      | .err _ st2 => .panicked .cantRunBlock st2
      | .panicked p st2 => .panicked p st2

/-- Model of `forall` (src/operators.rs). -/
def array_forall (ev : EvalFn) (st : State) : Outcome :=
  popK st fun p st => p.as_block.andThen st fun proc =>
  popK st fun a st => a.as_array.andThen st fun arr =>
  forallLoop ev proc arr st

/-- Model of `true` (src/operators.rs). -/
def bool_true (st : State) : Outcome :=
  .ok { st with operand_stack := .bool true :: st.operand_stack }

/-- Model of `false` (src/operators.rs). -/
def bool_false (st : State) : Outcome :=
  .ok { st with operand_stack := .bool false :: st.operand_stack }

/-- Model of `eq` (src/operators.rs): pop two values, push their `PartialEq` result. -/
def eq (st : State) : Outcome :=
  popK st fun a st =>
  popK st fun b st =>
  .ok { st with operand_stack := .bool (itemEq a b) :: st.operand_stack }

/-- Model of `ne` (src/operators.rs). -/
def ne (st : State) : Outcome :=
  popK st fun a st =>
  popK st fun b st =>
  .ok { st with operand_stack := .bool (!itemEq a b) :: st.operand_stack }

/-- Model of `dict` (src/operators.rs): pops the capacity hint, pushes an empty map
(`with_capacity` affects only allocation). -/
def dict_new (st : State) : Outcome :=
  popK st fun ni st => ni.as_int.andThen st fun _n =>
  .ok { st with operand_stack := .dict [] :: st.operand_stack }

/-- Model of `begin` (src/operators.rs): pop a dict (`into_dict` panics on other
variants), save the current dictionary on the enclosing stack. -/
def dict_begin (st : State) : Outcome :=
  popK st fun d st => d.into_dict.andThen st fun dict =>
  .ok { st with dictionary := dict, dict_stack := st.dictionary :: st.dict_stack }

/-- Model of `end` (src/operators.rs): restore the most recently saved dictionary. -/
def dict_end (st : State) : Outcome :=
  match st.dict_stack with
  | [] => .err .popUnderflow st
  | d :: rest => .ok { st with dictionary := d, dict_stack := rest }

/-- Model of `f32 as i32`: truncation toward zero (model of the cast in `cvi`). -/
def f32trunc (q : Rat) : Int := q.num.tdiv (q.den : Int)

/-- Model of `cvi` (src/operators.rs): `Number` re-pushed, `Float` truncated; any
other variant is silently dropped (nothing pushed, `Ok(())`). -/
def cvi (st : State) : Outcome :=
  popK st fun elem st =>
  match elem.as_int with
  | .ok i => .ok { st with operand_stack := .number i :: st.operand_stack }
  | _ =>
    match elem.as_float with
    | .ok f => .ok { st with operand_stack := .number (f32trunc f) :: st.operand_stack }
    | _ => .ok st

/-- One entry of the operator table: the `operator!(name, arity)` macro
records the stringified function name and the declared arity around a body. -/
structure OpDef where
  fnName : String
  arity : Nat
  body : EvalFn → State → Outcome

/-- The closure the `operator!` macro builds: compare the operand-stack depth
against the declared arity *before* running the body; on underflow fail with
"/stackunderflow in <fnName>" having touched nothing. -/
def guardedRun (d : OpDef) (ev : EvalFn) (st : State) : Outcome :=
  if st.operand_stack.length < d.arity then .err (.stackUnderflow d.fnName) st
  else d.body ev st

def addDef : OpDef := ⟨"add", 2, fun _ => add⟩
def subDef : OpDef := ⟨"sub", 2, fun _ => sub⟩
def mulDef : OpDef := ⟨"mul", 2, fun _ => mul⟩
def divDef : OpDef := ⟨"div", 2, fun _ => div⟩
def negDef : OpDef := ⟨"neg", 1, fun _ => neg⟩
def sqrtDef : OpDef := ⟨"sqrt", 1, fun _ => sqrt⟩
def randDef : OpDef := ⟨"rand", 0, fun _ => rand⟩
def exchDef : OpDef := ⟨"exch", 2, fun _ => exch⟩
def dupDef : OpDef := ⟨"dup", 1, fun _ => dup⟩
def popDef : OpDef := ⟨"pop", 1, fun _ => pop⟩
def clearDef : OpDef := ⟨"clear", 0, fun _ => clear⟩
def pstackDef : OpDef := ⟨"pstack", 0, fun _ => pstack⟩
def countDef : OpDef := ⟨"count", 0, fun _ => count⟩
def pdictDef : OpDef := ⟨"pdict", 0, fun _ => pdict⟩
def defDef : OpDef := ⟨"def", 2, fun _ => defOp⟩
def execDef : OpDef := ⟨"exec", 1, exec⟩
def repeatDef : OpDef := ⟨"repeat", 2, repeatOp⟩
def forDef : OpDef := ⟨"for_loop", 4, for_loop⟩
def ifDef : OpDef := ⟨"if_cond", 2, if_cond⟩
def ifelseDef : OpDef := ⟨"ifelse_cond", 3, ifelse_cond⟩
def trueDef : OpDef := ⟨"bool_true", 0, fun _ => bool_true⟩
def falseDef : OpDef := ⟨"bool_false", 0, fun _ => bool_false⟩
def eqDef : OpDef := ⟨"eq", 2, fun _ => eq⟩
def neDef : OpDef := ⟨"ne", 2, fun _ => ne⟩
def markDef : OpDef := ⟨"mark", 0, fun _ => mark⟩
def arrayCloseDef : OpDef := ⟨"array_close", 1, fun _ => array_close⟩
def lengthDef : OpDef := ⟨"array_length", 1, fun _ => array_length⟩
def forallDef : OpDef := ⟨"array_forall", 2, array_forall⟩
def dictDef : OpDef := ⟨"dict_new", 1, fun _ => dict_new⟩
def beginDef : OpDef := ⟨"dict_begin", 1, fun _ => dict_begin⟩
def endDef : OpDef := ⟨"dict_end", 0, fun _ => dict_end⟩
def cviDef : OpDef := ⟨"cvi", 1, fun _ => cvi⟩

/-- The operator table of `operators()` (src/operators.rs), in registration
order, mapping each operator name to its wrapped entry. -/
def operators : List (String × OpDef) :=
  [("add", addDef), ("sub", subDef), ("mul", mulDef), ("div", divDef),
   ("neg", negDef), ("sqrt", sqrtDef), ("rand", randDef),
   ("exch", exchDef), ("dup", dupDef), ("pop", popDef), ("clear", clearDef),
   ("pstack", pstackDef), ("count", countDef), ("pdict", pdictDef),
   ("def", defDef),
   ("exec", execDef), ("repeat", repeatDef), ("for", forDef),
   ("if", ifDef), ("ifelse", ifelseDef),
   ("true", trueDef), ("false", falseDef), ("eq", eqDef), ("ne", neDef),
   ("[", markDef), ("]", arrayCloseDef), ("length", lengthDef),
   ("forall", forallDef),
   ("dict", dictDef), ("begin", beginDef), ("end", endDef),
   ("cvi", cviDef)]

/-- Model of `operators.get(key).unwrap()` followed by the guarded call; callers in
src/main.rs check `contains_key` first, so the `none` arm is unreachable. -/
def runOpKey (ev : EvalFn) (key : String) (st : State) : Outcome :=
  match operators.lookup key with
  | some d => guardedRun d ev st
  | none => .panicked .unwrapNone st

/-- Digit value of a character for a given radix (0-9, a-z, A-Z). -/
def digitVal? (c : Char) (radix : Nat) : Option Nat :=
  let v :=
    if c.toNat ≥ 48 ∧ c.toNat ≤ 57 then some (c.toNat - 48)
    else if c.toNat ≥ 97 ∧ c.toNat ≤ 122 then some (c.toNat - 97 + 10)
    else if c.toNat ≥ 65 ∧ c.toNat ≤ 90 then some (c.toNat - 65 + 10)
    else none
  match v with
  | some d => if d < radix then some d else none
  | none => none

def parseDigitsAux (radix : Nat) (acc : Nat) : List Char → Option Nat
  | [] => some acc
  | c :: cs =>
      match digitVal? c radix with
      | some d => parseDigitsAux radix (acc * radix + d) cs
      | none => none

/-- A non-empty run of digits in the given radix, as a natural number. -/
def parseDigits? (radix : Nat) (cs : List Char) : Option Nat :=
  if cs.isEmpty then none else parseDigitsAux radix 0 cs

/-- Model of `str::parse::<i32>`: optional sign, decimal digits, i32 range. -/
def parseI32? (s : String) : Option Int :=
  match s.toList with
  | '+' :: cs => (parseDigits? 10 cs).bind fun n =>
      if n ≤ 2 ^ 31 - 1 then some (Int.ofNat n) else none
  | '-' :: cs => (parseDigits? 10 cs).bind fun n =>
      if n ≤ 2 ^ 31 then some (-(Int.ofNat n)) else none
  | cs => (parseDigits? 10 cs).bind fun n =>
      if n ≤ 2 ^ 31 - 1 then some (Int.ofNat n) else none

/-- Model of `i32::from_str_radix`: optional sign, digits in the radix, i32 range. -/
def fromStrRadix? (radix : Nat) (s : String) : Option Int :=
  match s.toList with
  | '+' :: cs => (parseDigits? radix cs).bind fun n =>
      if n ≤ 2 ^ 31 - 1 then some (Int.ofNat n) else none
  | '-' :: cs => (parseDigits? radix cs).bind fun n =>
      if n ≤ 2 ^ 31 then some (-(Int.ofNat n)) else none
  | cs => (parseDigits? radix cs).bind fun n =>
      if n ≤ 2 ^ 31 - 1 then some (Int.ofNat n) else none

/-- Split a character run at the first dot (decimal point). -/
def splitAtDot : List Char → List Char × Option (List Char)
  | [] => ([], none)
  | '.' :: cs => ([], some cs)
  | c :: cs =>
      let (a, b) := splitAtDot cs
      (c :: a, b)

/-- Unsigned decimal value with optional fractional part. -/
def decimalVal? (cs : List Char) : Option Rat :=
  match splitAtDot cs with
  | (ip, none) => (parseDigits? 10 ip).map (fun n => (n : Rat))
  | (ip, some fp) =>
      if ip.isEmpty ∧ fp.isEmpty then none
      else
        let ipv := if ip.isEmpty then some 0 else parseDigits? 10 ip
        let fpv := if fp.isEmpty then some 0 else parseDigits? 10 fp
        ipv.bind fun i => fpv.map fun f =>
          (i : Rat) + (f : Rat) / ((10 : Rat) ^ fp.length)

/-- Modelled from the spec: `str::parse::<f32>` (host library), restricted to
signed decimal forms; the value is carried exactly as a rational instead of
being rounded to `f32` (see the header note). -/
def parseF32? (s : String) : Option Rat :=
  match s.toList with
  | '+' :: cs => decimalVal? cs
  | '-' :: cs => (decimalVal? cs).map (fun q => -q)
  | cs => decimalVal? cs

/-- Split a character run at the first `#` (`code.find('#')` in main.rs). -/
def splitAtHash : List Char → Option (List Char × List Char)
  | [] => none
  | '#' :: cs => some ([], cs)
  | c :: cs =>
      (splitAtHash cs).map (fun p => (c :: p.1, p.2))

/-- One classified lexical token, as delivered by the (external) lexer. -/
inductive Token where
  | number : String → Token
  | radixnumber : String → Token
  | key : String → Token      -- the name, without the leading slash
  | ident : String → Token
  | op : String → Token       -- one of the four bracket tokens

/-- The original source text of a token (`inner.as_str()`). -/
def Token.srcText : Token → String
  | .number s => s
  | .radixnumber s => s
  | .key n => "/" ++ n
  | .ident s => s
  | .op s => s

/-- Modelled from the spec: token classification.  The lexer (grammar.pest)
is not among the core sources; §6 describes the token stream as
whitespace-separated words classified as number, radix number, key literal,
identifier or bracket, each carrying its source text. -/
def classify (w : String) : Token :=
  if w = "\x7b" ∨ w = "\x7d" ∨ w = "[" ∨ w = "]" then .op w
  else
    match w.toList with
    | '/' :: rest => .key (String.mk rest)
    | cs =>
        match splitAtHash cs with
        | some (a, b) =>
            if (parseDigits? 10 a).isSome ∧ b ≠ [] ∧ b.all (fun c => (digitVal? c 36).isSome)
            then .radixnumber w
            else .ident w
        | none =>
            if (parseI32? w).isSome ∨ (parseF32? w).isSome then .number w
            else .ident w

/-- Split a character run into space-separated words. -/
def wordsAux : List Char → List Char → List (List Char)
  | [], acc => if acc.isEmpty then [] else [acc.reverse]
  | c :: cs, acc =>
      if c = ' ' then
        if acc.isEmpty then wordsAux cs [] else acc.reverse :: wordsAux cs []
      else wordsAux cs (c :: acc)

/-- Modelled from the spec: lexing one program unit into classified tokens. -/
def lex (code : String) : List Token :=
  (wordsAux code.toList []).map (fun w => classify (String.mk w))

/-- One step of the evaluator: the per-token `match` in `execute`
(src/main.rs).  Mirrors each branch, including which branches check the
block-capture state (`block_stack`) before acting — the `radixnumber`
branch is the one that does not. -/
def execItem (ev : EvalFn) (tok : Token) (st : State) : Outcome :=
  match tok with
  | .number s =>
      if !st.block_stack.isEmpty then
        .ok { st with block_stack := st.block_stack ++ [s] }
      else
        match parseI32? s with
        | some n => .ok { st with operand_stack := .number n :: st.operand_stack }
        | none =>
          match parseF32? s with
          | some q => .ok { st with operand_stack := .float q :: st.operand_stack }
          | none => .err (.invalidNumber s) st
  | .radixnumber s =>
      -- NOTE (source): this branch has no `block_stack` guard.
      match splitAtHash s.toList with
      | none => .panicked (.other "no # found") st
      | some (pre, suf) =>
          match parseI32? (String.mk pre) with
          | none => .panicked .unwrapNone st
          | some radix =>
              if ¬(2 ≤ radix ∧ radix ≤ 36) then .err (.undefined s) st
              else
                match fromStrRadix? radix.toNat (String.mk suf) with
                | none => .err (.undefined s) st
                | some n => .ok { st with operand_stack := .number n :: st.operand_stack }
  | .key name =>
      if !st.block_stack.isEmpty then
        .ok { st with block_stack := st.block_stack ++ ["/" ++ name] }
      else
        .ok { st with operand_stack := .key name :: st.operand_stack }
  | .ident s =>
      if !st.block_stack.isEmpty then
        .ok { st with block_stack := st.block_stack ++ [s] }
      else if st.contains_key s then
        match st.get s with
        | some (.block b) => ev b st
        | some item => .ok { st with operand_stack := item :: st.operand_stack }
        | none => .panicked .unwrapNone st
      else if (operators.lookup s).isSome then
        runOpKey ev s st
      else
        .err (.undefined s) st
  | .op s =>
      if s = "\x7b" then
        .ok { st with block_stack := st.block_stack ++ ["\x7b"],
                      block_marks := st.block_marks + 1 }
      else if s = "\x7d" then
        if st.block_stack.isEmpty then .err .syntaxError st
        else
          -- `block_marks -= 1` (usize); in every reachable state a non-empty
          -- buffer implies `block_marks ≥ 1`, so `Nat` subtraction agrees.
          let marks := st.block_marks - 1
          if marks > 0 then
            .ok { st with block_stack := st.block_stack ++ [s], block_marks := marks }
          else
            .ok { st with
                    operand_stack :=
                      .block (String.intercalate " " st.block_stack.tail) :: st.operand_stack,
                    block_stack := [], block_marks := marks }
      else if s = "[" then
        if !st.block_stack.isEmpty then
          .ok { st with block_stack := st.block_stack ++ [s] }
        else runOpKey ev "[" st
      else if s = "]" then
        if !st.block_stack.isEmpty then
          .ok { st with block_stack := st.block_stack ++ [s] }
        else runOpKey ev "]" st
      else .panicked (.other "invalid ops") st

/-- The token loop of `execute` (src/main.rs): run items left to right,
stopping at the first failure. -/
def execTokens (ev : EvalFn) : List Token → State → Outcome
  | [], st => .ok st
  | t :: ts, st =>
      match execItem ev t st with
      | .ok st2 => execTokens ev ts st2
      | o => o

/-- Model of `execute` (src/main.rs), fuelled: each nested block evaluation consumes
one unit of host call stack; running out models host stack exhaustion
(spec §5: fatal, not a reported error). -/
def evalStr : Nat → String → State → Outcome
  | 0, _, st => .panicked (.other "host call stack exhausted") st
  | fuel + 1, code, st => execTokens (evalStr fuel) (lex code) st

theorem lookup_div : operators.lookup "div" = some divDef := rfl

theorem lookup_eq : operators.lookup "eq" = some eqDef := rfl

theorem lookup_ne : operators.lookup "ne" = some neDef := rfl

theorem lookup_exch : operators.lookup "exch" = some exchDef := rfl

theorem lookup_close : operators.lookup "]" = some arrayCloseDef := rfl

theorem lookup_begin : operators.lookup "begin" = some beginDef := rfl

theorem lookup_def : operators.lookup "def" = some defDef := rfl

theorem lookup_end : operators.lookup "end" = some endDef := rfl

/-- A stack without any `Mark` makes the `rposition` scan come up empty. -/
theorem findMarkSplit_eq_none :
    ∀ l : List Item, (∀ x ∈ l, x ≠ .mark) → findMarkSplit l = none := by
  intro l h
  induction l with
  | nil => rfl
  | cons x rest ih =>
      have hx := h x (List.mem_cons_self x rest)
      have hrest : ∀ y ∈ rest, y ≠ Item.mark := fun y hy => h y (List.mem_cons_of_mem x hy)
      cases x <;> first
        | exact absurd rfl hx
        | simp [findMarkSplit, ih hrest]

/-- A convenient no-op evaluator for witnesses of operators that never call
back into `execute`. -/
def evalNone : EvalFn := fun _ st => .ok st

/-- Claim C1:  The claim says every coercion (`asInt`, `asFloat`, `asKey`,
`asBlock`, `asArray`, `asBool`, `intoDict`) fails with a recoverable
TypeCheck error on a wrong-variant argument and never panics.  The first
four do; but `as_array`, `as_bool` and `into_dict` (src/stack.rs lines
57-79) `panic!` on a wrong variant despite their `Result` return type, and
the panic is reachable from a program (`1 { 0 } if` routes `Number(1)`
through `as_bool`).  This theorem evaluates the code at those inputs. -/
theorem c1_wrong_variant_coercions :
    ((Item.bool true).as_int = .err (.typeCheck (.bool true) "int")
      ∧ (Item.bool true).as_float = .err (.typeCheck (.bool true) "float")
      ∧ (Item.number 1).as_key = .err (.typeCheck (.number 1) "key")
      ∧ (Item.number 1).as_block = .err (.typeCheck (.number 1) "block"))
    ∧ ((Item.number 1).as_array = .panicked (.notKind (.number 1) "array")
      ∧ (Item.number 1).as_bool = .panicked (.notKind (.number 1) "bool")
      ∧ (Item.number 1).into_dict = .panicked (.notKind (.number 1) "dict"))
    ∧ evalStr 1 "1 \x7b 0 \x7d if" State.init =
        .panicked (.notKind (.number 1) "bool") State.init :=
  ⟨⟨rfl, rfl, rfl, rfl⟩, ⟨rfl, rfl, rfl⟩, rfl⟩

/-- Claim C2:  The claim says a failing block evaluation inside `forall` is
returned as a recoverable error.  In the code (src/operators.rs line 302)
`array_forall` runs each block with `.expect("can't run block")`, turning
the recoverable error into a host-level panic.  Running
`[ 1 ] { qq } forall` (where `qq` is undefined): the inner evaluation of
the block fails recoverably with Undefined, and `forall` panics. -/
theorem c2_forall_panics_on_failing_block :
    evalStr 2 "[ 1 ] \x7b qq \x7d forall" State.init =
      .panicked .cantRunBlock { State.init with operand_stack := [.number 1] }
    ∧ evalStr 1 "qq" { State.init with operand_stack := [.number 1] } =
        .err (.undefined "qq") { State.init with operand_stack := [.number 1] } :=
  ⟨rfl, rfl⟩

/-- Claim C3:  Every builtin operator in the table is wrapped by the
`operator!` guard: invoked on a state whose operand stack is shorter than
the declared arity, it fails with StackUnderflow naming the operator's
implementing function, and returns the state exactly as it was — nothing
popped or pushed, no other field touched. -/
theorem c3_arity_gate (p : String × OpDef) (_hp : p ∈ operators) (ev : EvalFn)
    (st : State) (h : st.operand_stack.length < p.2.arity) :
    guardedRun p.2 ev st = .err (.stackUnderflow p.2.fnName) st := by
  simp [guardedRun, h]

theorem c3_witness :
    guardedRun addDef evalNone State.init = .err (.stackUnderflow "add") State.init :=
  c3_arity_gate ("add", addDef) (by unfold operators; exact List.Mem.head _)
    evalNone State.init (by decide)

/-- Claim C4:  The claim says every token arriving while capturing is
appended to the buffer and never executed, radix literals included.  The
`Rule::radixnumber` branch of `execute` (src/main.rs lines 161-176) is the
one branch with no `block_stack` guard: `{ 16#FF }` pushes `Number(255)`
onto the operand stack mid-capture and yields `Block("")`, while the
analogous decimal literal `{ 17 }` is captured correctly into
`Block("17")`. -/
theorem c4_radix_not_captured :
    evalStr 1 "\x7b 16#FF \x7d" State.init =
      .ok { State.init with operand_stack := [.block "", .number 255] }
    ∧ evalStr 1 "\x7b 17 \x7d" State.init =
      .ok { State.init with operand_stack := [.block "17"] } :=
  ⟨rfl, rfl⟩

/-- Claim C5:  A `}` with an empty capture buffer is a SyntaxError and
changes nothing; a `}` at depth 1 drops the buffer's leading `{`, joins the
remaining captured texts with single spaces, pushes the resulting `Block`,
clears the buffer and returns the machine to Idle. -/
theorem c5_close_brace (ev : EvalFn) (st : State) :
    (st.block_stack = [] → execItem ev (.op "\x7d") st = .err .syntaxError st)
    ∧ (∀ rest, st.block_stack = "\x7b" :: rest → st.block_marks = 1 →
        execItem ev (.op "\x7d") st =
          .ok { st with
                  operand_stack :=
                    .block (String.intercalate " " rest) :: st.operand_stack,
                  block_stack := [], block_marks := 0 }) := by
  constructor
  · intro h
    simp [execItem, h]
  · intro rest h hm
    simp [execItem, h, hm]

theorem c5_witness :
    execItem evalNone (.op "\x7d") ⟨[], [], [], ["\x7b", "1"], 1⟩ =
      .ok ⟨[.block "1"], [], [], [], 0⟩
    ∧ execItem evalNone (.op "\x7d") State.init = .err .syntaxError State.init := by
  constructor
  · have h := (c5_close_brace evalNone ⟨[], [], [], ["\x7b", "1"], 1⟩).2 ["1"] rfl rfl
    simpa using h
  · exact (c5_close_brace evalNone State.init).1 rfl

/-- Claim C6:  With the current dictionary `C` and a dict `D` on the stack:
`begin` makes `D` current and saves `C`; `def x v` writes only into the
current dictionary (`C` stays on the enclosing stack unchanged, so its
binding of `x` is untouched); `end` makes `C` current again exactly as it
was before `begin`. -/
theorem c6_scope (ev : EvalFn) (st : State) (D C : List (String × Item))
    (x : String) (v : Item) (rest : List Item)
    (hstack : st.operand_stack = .dict D :: rest) (hdict : st.dictionary = C) :
    runOpKey ev "begin" st =
      .ok { st with operand_stack := rest, dictionary := D,
                    dict_stack := C :: st.dict_stack }
    ∧ runOpKey ev "def"
        { st with operand_stack := v :: .key x :: rest, dictionary := D,
                  dict_stack := C :: st.dict_stack } =
      .ok { st with operand_stack := rest, dictionary := insertD D x v,
                    dict_stack := C :: st.dict_stack }
    ∧ runOpKey ev "end"
        { st with operand_stack := rest, dictionary := insertD D x v,
                  dict_stack := C :: st.dict_stack } =
      .ok { st with operand_stack := rest, dictionary := C,
                    dict_stack := st.dict_stack } := by
  subst hdict
  refine ⟨?_, ?_, ?_⟩
  · simp [runOpKey, lookup_begin, beginDef, guardedRun, dict_begin, popK,
          Item.into_dict, CoerceOut.andThen, hstack]
  · simp [runOpKey, lookup_def, defDef, guardedRun, defOp, popK,
          Item.as_key, CoerceOut.andThen]
  · simp [runOpKey, lookup_end, endDef, guardedRun, dict_end]

theorem c6_witness :
    runOpKey evalNone "begin" ⟨[.dict []], [("x", .number 9)], [], [], 0⟩ =
      .ok ⟨[], [], [[("x", .number 9)]], [], 0⟩
    ∧ runOpKey evalNone "def" ⟨[.number 7, .key "x"], [], [[("x", .number 9)]], [], 0⟩ =
      .ok ⟨[], [("x", .number 7)], [[("x", .number 9)]], [], 0⟩
    ∧ runOpKey evalNone "end" ⟨[], [("x", .number 7)], [[("x", .number 9)]], [], 0⟩ =
      .ok ⟨[], [("x", .number 9)], [], [], 0⟩ := by
  have h := c6_scope evalNone ⟨[.dict []], [("x", .number 9)], [], [], 0⟩
    [] [("x", .number 9)] "x" (.number 7) [] rfl rfl
  simpa [insertD] using h

/-- Claim C7:  Whenever `div` succeeds — in particular on two `Number`
operands — the pushed result is of the `Float` variant (float division of
the coerced operands), never `Number`. -/
theorem c7_div_float (ev : EvalFn) (st : State) (n2 n1 : Item) (rest : List Item)
    (q2 q1 : Rat) (hstack : st.operand_stack = n2 :: n1 :: rest)
    (h2 : n2.as_float = .ok q2) (h1 : n1.as_float = .ok q1) :
    runOpKey ev "div" st = .ok { st with operand_stack := .float (q1 / q2) :: rest } := by
  simp [runOpKey, lookup_div, divDef, guardedRun, div, popK, CoerceOut.andThen,
        hstack, h2, h1]

theorem c7_witness :
    runOpKey evalNone "div" ⟨[.number 2, .number 4], [], [], [], 0⟩ =
      .ok ⟨[.float 2], [], [], [], 0⟩ := by
  have h := c7_div_float evalNone ⟨[.number 2, .number 4], [], [], [], 0⟩
    (.number 2) (.number 4) [] 2 4 rfl rfl rfl
  rw [h]
  norm_num

/-- Claim C8:  `eq` pops two values and pushes their variant-sensitive
structural equality as a `Bool`; `ne` pushes the negation; `itemEq` agrees
with structural equality, values of different variants are never equal, and
in particular `Number(1)` and `Float(1.0)` compare unequal. -/
theorem c8_eq_ne (ev : EvalFn) (st : State) (a b : Item) (rest : List Item)
    (hstack : st.operand_stack = a :: b :: rest) :
    runOpKey ev "eq" st = .ok { st with operand_stack := .bool (itemEq a b) :: rest }
    ∧ runOpKey ev "ne" st = .ok { st with operand_stack := .bool (!itemEq a b) :: rest }
    ∧ (itemEq a b = true ↔ a = b)
    ∧ (a.tag ≠ b.tag → itemEq a b = false)
    ∧ itemEq (.number 1) (.float 1) = false := by
  refine ⟨?_, ?_, itemEq_iff a b, itemEq_of_tag_ne a b, rfl⟩
  · simp [runOpKey, lookup_eq, eqDef, guardedRun, eq, popK, hstack]
  · simp [runOpKey, lookup_ne, neDef, guardedRun, ne, popK, hstack]

theorem c8_witness :
    runOpKey evalNone "eq" ⟨[.float 1, .number 1], [], [], [], 0⟩ =
      .ok ⟨[.bool false], [], [], [], 0⟩ := by
  have h := (c8_eq_ne evalNone ⟨[.float 1, .number 1], [], [], [], 0⟩
    (.float 1) (.number 1) [] rfl).1
  simpa [itemEq] using h

/-- Claim C9:  `]` is registered with declared arity 1, so on an empty
operand stack the uniform arity gate fires first: the failure is
StackUnderflow (naming `array_close`), not UnmatchedMark.  UnmatchedMark is
reported exactly when the stack is non-empty (the gate passes) but holds no
`Mark`.  The state is unchanged in both cases. -/
theorem c9_close_empty_vs_nomark (ev : EvalFn) (st : State) :
    (st.operand_stack = [] →
      runOpKey ev "]" st = .err (.stackUnderflow "array_close") st)
    ∧ (st.operand_stack ≠ [] → (∀ x ∈ st.operand_stack, x ≠ .mark) →
      runOpKey ev "]" st = .err .unmatchedMark st) := by
  constructor
  · intro h
    simp [runOpKey, lookup_close, arrayCloseDef, guardedRun, h]
  · intro hne hnomark
    have hlen : ¬ st.operand_stack.length < 1 := by
      cases hstack : st.operand_stack with
      | nil => exact absurd hstack hne
      | cons a rest => simp [hstack]
    simp [runOpKey, lookup_close, arrayCloseDef, guardedRun, hlen,
          array_close, findMarkSplit_eq_none st.operand_stack hnomark]

theorem c9_witness :
    runOpKey evalNone "]" State.init =
      .err (.stackUnderflow "array_close") State.init
    ∧ runOpKey evalNone "]" ⟨[.number 1], [], [], [], 0⟩ =
      .err .unmatchedMark ⟨[.number 1], [], [], [], 0⟩ := by
  constructor
  · exact (c9_close_empty_vs_nomark evalNone State.init).1 rfl
  · exact (c9_close_empty_vs_nomark evalNone ⟨[.number 1], [], [], [], 0⟩).2
      (by simp) (by simp)

/-- Claim C10:  When the operand stack holds at least two values (the arity
gate's precondition for `exch`, registered with arity 2), `exch` does not
panic despite its two unchecked `.unwrap()` pops: it succeeds and exactly
swaps the top two values, leaving the rest of the stack and every other
state component unchanged. -/
theorem c10_exch (ev : EvalFn) (st : State) (a b : Item) (rest : List Item)
    (hstack : st.operand_stack = a :: b :: rest) :
    runOpKey ev "exch" st = .ok { st with operand_stack := b :: a :: rest } := by
  simp [runOpKey, lookup_exch, exchDef, guardedRun, exch, popUnwrapK, hstack]

theorem c10_witness :
    runOpKey evalNone "exch" ⟨[.number 1, .number 2], [], [], [], 0⟩ =
      .ok ⟨[.number 2, .number 1], [], [], [], 0⟩ := by
  have h := c10_exch evalNone ⟨[.number 1, .number 2], [], [], [], 0⟩
    (.number 1) (.number 2) [] rfl
  simpa using h

end ES
